import Mathlib

/-!
Shallow embedding of `react-keenstore` (src/index.ts): the `useStore` hook
binding a `keenstore` `Store` to a React component, and the
`useStoreContext` convenience wrapper.

The external collaborators are modelled from their documented interfaces:
a store is an observable cell identified by a numeric id (reference
identity), exposing `getState`, `setState` and `onUpdate`; React supplies a
per-instance `useState` cell, `useMemo` keyed on the store reference, and
`useEffect` with dependency comparison, cleanup-before-rerun and
cleanup-on-unmount.  `Math.random()` is modelled as a stream of rational
draws consumed one per call.
-/

/-- Responsiveness policy argument of `useStore` (src/index.ts line 11):
either a boolean or a predicate `(nextState, prevState) => boolean`.
A predicate carries a numeric tag modelling JavaScript function reference
identity, which React uses when comparing effect dependencies. -/
inductive Responsive (T : Type) where
  | bool (b : Bool)
  | pred (ref : Nat) (fn : T → T → Bool)

/-- JavaScript truthiness of the `responsive` value, as tested by
`if (!responsive) return;` (src/index.ts line 22): `false` is falsy,
`true` and every function are truthy. -/
def truthy {T : Type} : Responsive T → Bool
  | .bool b => b
  | .pred _ _ => true

/-- Body of the listener registered with `store.onUpdate`
(src/index.ts lines 26-27):
`typeof responsive !== "function" || responsive(nextState, prevState)` (with the source writing a single-quoted string literal). -/
def listenerFires {T : Type} (responsive : Responsive T) (nextState prevState : T) : Bool :=
  match responsive with
  | .bool _ => true
  | .pred _ fn => fn nextState prevState

/-- The `Object.is` comparison of two `responsive` dependency values, as performed by React on the `[store, responsive]` dependency array: booleans compare by
value, functions by reference. -/
def respEq {T : Type} : Responsive T → Responsive T → Bool
  | .bool a, .bool b => a == b
  | .pred i _, .pred j _ => i == j
  | _, _ => false

/-- A JavaScript value passed as the `store` argument of `useStore`.
`inst sid` is a genuine `Store` instance (identified by its reference id
`sid`); `duck sid` is an object that structurally exposes working
`getState` / `setState` / `onUpdate` methods over the same store data but
was not constructed by the `Store` class, so `store instanceof Store` is
false for it; `other` is any other value. -/
inductive StoreArg (T : Type) where
  | inst (sid : Nat)
  | duck (sid : Nat)
  | other

/-- The `store instanceof Store` test (src/index.ts line 13): class
identity, true exactly on genuine `Store` instances. -/
def isStoreInst {T : Type} : StoreArg T → Bool
  | .inst _ => true
  | _ => false

/-- The value `store.setState.bind(store)` produced by the `useMemo`
callback (src/index.ts line 19): a setter bound to the store with id
`storeId`; `ref` models the reference identity of the freshly created
bound function. -/
structure Setter where
  storeId : Nat
  ref : Nat
deriving DecidableEq

/-- A live registration in the listener registry of a store, created by
`store.onUpdate(...)`: `regId` is the registration handle captured by the
returned unsubscribe function, `storeId` the store it is registered with,
and `fires` the listener body deciding whether a delivered update
triggers `setRevision`. -/
structure Reg (T : Type) where
  regId : Nat
  storeId : Nat
  fires : T → T → Bool

/-- The React hook cells of one component instance using `useStore`:
the `useState(-1)` revision cell (src/index.ts line 16), the `useMemo`
cache for the bound setter keyed on the store (line 19), the dependency
array and cleanup handle of the `useEffect` (lines 21-29), a counter
producing fresh function references, the position in the `Math.random()`
stream, and the cumulative number of re-render requests
(`setRevision` calls) issued so far. -/
structure Hooks (T : Type) where
  revision : Rat
  memo : Option (Nat × Setter)
  lastDeps : Option (Nat × Responsive T)
  subReg : Option Nat
  freshSetter : Nat
  randIdx : Nat
  requests : Nat

/-- The whole system: the state of every store (by store id), the flattened
listener registries of all stores, the next registration handle, and the
hook cells of the single component instance under consideration. -/
structure SysState (T : Type) where
  stores : Nat → T
  regs : List (Reg T)
  nextReg : Nat
  hooks : Hooks T

/-- Hook cells of a freshly mounted component: `useState(-1)`, empty memo,
no effect run yet, no subscription. -/
def initHooks {T : Type} : Hooks T :=
  { revision := -1, memo := none, lastDeps := none, subReg := none,
    freshSetter := 0, randIdx := 0, requests := 0 }

/-- Initial system: store states given by `σ0`, empty registries, fresh
component instance. -/
def initSys {T : Type} (σ0 : Nat → T) : SysState T :=
  { stores := σ0, regs := [], nextReg := 0, hooks := initHooks }

/-- Model of `useMemo(() => store.setState.bind(store), [store])`
(src/index.ts line 19): if the memo cell holds a value computed for the
same store reference, reuse it; otherwise create a fresh bound setter and
cache it.  Returns the setter, the new memo cell and the new freshness
counter. -/
def useMemoSetter (memo : Option (Nat × Setter)) (sid fresh : Nat) :
    Setter × Option (Nat × Setter) × Nat :=
  match memo with
  | some (msid, st) =>
      if msid = sid then (st, some (msid, st), fresh)
      else (⟨sid, fresh⟩, some (sid, ⟨sid, fresh⟩), fresh + 1)
  | none => (⟨sid, fresh⟩, some (sid, ⟨sid, fresh⟩), fresh + 1)

/-- The dependency comparison React applies to the `[store, responsive]`
array of the effect: the effect re-runs iff there was no previous run or some dependency
changed (store by reference, responsive by `Object.is`). -/
def depsChanged {T : Type} (last : Option (Nat × Responsive T)) (sid : Nat)
    (responsive : Responsive T) : Bool :=
  match last with
  | none => true
  | some (dsid, dresp) => !((dsid == sid) && respEq dresp responsive)

/-- Running the cleanup of the effect: the unsubscribe function returned by
`store.onUpdate` removes its own registration from the registry; when the
previous effect run made no subscription there is nothing to clean up. -/
def cleanupSub {T : Type} (regs : List (Reg T)) (subReg : Option Nat) : List (Reg T) :=
  match subReg with
  | none => regs
  | some rid => regs.filter (fun r => r.regId != rid)

/-- One committed run of the `useEffect` (src/index.ts lines 21-29) with
the semantics of React: if the `[store, responsive]` dependencies are unchanged
since the last run, nothing happens; otherwise the previous cleanup runs
first, and then the effect body runs: it returns early when `responsive`
is falsy, else it registers the update listener with the store and keeps
the returned unsubscribe as the next cleanup. -/
def runEffect {T : Type} (s : SysState T) (sid : Nat) (responsive : Responsive T) :
    SysState T :=
  if depsChanged s.hooks.lastDeps sid responsive then
    let regs1 := cleanupSub s.regs s.hooks.subReg
    if truthy responsive then
      { s with
          regs := regs1 ++ [⟨s.nextReg, sid, listenerFires responsive⟩],
          nextReg := s.nextReg + 1,
          hooks := { s.hooks with
                       subReg := some s.nextReg,
                       lastDeps := some (sid, responsive) } }
    else
      { s with
          regs := regs1,
          hooks := { s.hooks with
                       subReg := none,
                       lastDeps := some (sid, responsive) } }
  else s

/-- One render of the component with a genuine store instance `sid`,
followed by the effect commit: read `store.getState()` synchronously
(src/index.ts line 18), obtain the memoized bound setter (line 19), run
the effect (lines 21-29), and return the `[state, setState]` pair together
with the successor system state. -/
def renderInst {T : Type} (s : SysState T) (sid : Nat) (responsive : Responsive T) :
    (T × Setter) × SysState T :=
  let ms := useMemoSetter s.hooks.memo sid s.hooks.freshSetter
  let s1 : SysState T :=
    { s with hooks := { s.hooks with memo := ms.2.1, freshSetter := ms.2.2 } }
  ((s.stores sid, ms.1), runEffect s1 sid responsive)

/-- The `useStore` hook (src/index.ts lines 9-32).  The guard
`if (!(store instanceof Store)) throw new Error(...)` (lines 13-14) runs
first, before any hook cell is touched and before any subscription is
attempted: a non-instance argument yields the error and no successor
state.  An omitted `responsive` argument (`none`) takes the declared
default `true` (line 11). -/
def useStore {T : Type} (s : SysState T) (store : StoreArg T)
    (rArg : Option (Responsive T)) :
    Except String ((T × Setter) × SysState T) :=
  match store with
  | .inst sid => .ok (renderInst s sid (rArg.getD (.bool true)))
  | _ => .error "store is not an instance of Store"

/-- Effect of one registered listener on the hook cells when store `sid`
emits `(next, prev)`: a listener of that store runs the body of
src/index.ts lines 26-27 and, when it fires, calls
`setRevision(Math.random())`, consuming one draw from the random stream
`ρ` and issuing one re-render request; listeners of other stores are not
invoked. -/
def deliverOne {T : Type} (ρ : Nat → Rat) (h : Hooks T) (r : Reg T)
    (sid : Nat) (next prev : T) : Hooks T :=
  if r.storeId = sid then
    if r.fires next prev then
      { h with revision := ρ h.randIdx, randIdx := h.randIdx + 1,
               requests := h.requests + 1 }
    else h
  else h

/-- Delivery of one update notification `(next, prev)` emitted by store
`sid` to the whole listener registry, in registration order. -/
def deliver {T : Type} (ρ : Nat → Rat) (regs : List (Reg T)) (h : Hooks T)
    (sid : Nat) (next prev : T) : Hooks T :=
  match regs with
  | [] => h
  | r :: rest => deliver ρ rest (deliverOne ρ h r sid next prev) sid next prev

/-- Model of `store.setState(f)` on store `sid`: compute `next` from `prev`, commit
the new store state, and synchronously notify the registered listeners
with `(next, prev)`. -/
def setStep {T : Type} (ρ : Nat → Rat) (s : SysState T) (sid : Nat) (f : T → T) :
    SysState T :=
  let prev := s.stores sid
  let next := f prev
  { s with
      stores := fun i => if i = sid then next else s.stores i,
      hooks := deliver ρ s.regs s.hooks sid next prev }

/-- Unmounting the component: React runs the pending effect cleanup
unconditionally, tearing down the subscription regardless of policy. -/
def unmountStep {T : Type} (s : SysState T) : SysState T :=
  { s with regs := cleanupSub s.regs s.hooks.subReg,
           hooks := { s.hooks with subReg := none } }

/-- Events driving one component instance bound through `useStore`:
a render with a store and a (possibly omitted) responsiveness argument,
a `setState` on some store, or the unmount of the component. -/
inductive Ev (T : Type) where
  | render (sid : Nat) (rArg : Option (Responsive T))
  | set (sid : Nat) (f : T → T)
  | unmount

/-- One system step. -/
def stepEv {T : Type} (ρ : Nat → Rat) (s : SysState T) : Ev T → SysState T
  | .render sid rArg => (renderInst s sid (rArg.getD (.bool true))).2
  | .set sid f => setStep ρ s sid f
  | .unmount => unmountStep s

/-- Run a list of events from a state. -/
def runEvs {T : Type} (ρ : Nat → Rat) (s : SysState T) : List (Ev T) → SysState T
  | [] => s
  | e :: es => runEvs ρ (stepEv ρ s e) es

/-- The state component of a `useStore` result, when the call succeeded. -/
def stateOf {T : Type} (r : Except String ((T × Setter) × SysState T)) : Option T :=
  match r with
  | .ok x => some x.1.1
  | .error _ => none

/-- Whether a `useStore` call threw. -/
def isErr {T : Type} (r : Except String ((T × Setter) × SysState T)) : Bool :=
  match r with
  | .ok _ => false
  | .error _ => true

/-- A React Context whose value is (supposed to be) a single store
(src/index.ts line 40). -/
structure ReactContext (T : Type) where
  value : StoreArg T

/-- Model of `useContext(context)`: resolve the context to its current value. -/
def useContextStore {T : Type} (ctx : ReactContext T) : StoreArg T :=
  ctx.value

/-- The `useStoreContext` hook (src/index.ts lines 39-44): resolve the
context and delegate to `useStore`, passing the `responsive` argument
through unchanged (at runtime an omitted argument arrives as `undefined`,
modelled by `none`). -/
def useStoreContext {T : Type} (s : SysState T) (ctx : ReactContext T)
    (rArg : Option (Responsive T)) :
    Except String ((T × Setter) × SysState T) :=
  useStore s (useContextStore ctx) rArg

/-- Modelled from the spec: the claimed contract of the context variant —
`useStoreContext(context, policy)` behaves exactly like
`useStore(resolvedStore, policy)`, with an omitted policy meaning the
default always-responsive policy `true`. -/
def useStoreContextClaimed {T : Type} (s : SysState T) (ctx : ReactContext T)
    (rArg : Option (Responsive T)) :
    Except String ((T × Setter) × SysState T) :=
  useStore s (useContextStore ctx) (some (rArg.getD (.bool true)))

/-- A freshly mounted component bound to store `sid` under policy `resp`:
the system after the first render (and effect commit) of `useStore` from
the initial system with store states `σ0`. -/
def mounted {T : Type} (ρ : Nat → Rat) (σ0 : Nat → T) (sid : Nat)
    (resp : Responsive T) : SysState T :=
  runEvs ρ (initSys σ0) [Ev.render sid (some resp)]

/-! ## Theorems -/

/-- Claim C6: for every invocation of the binding, the state value returned
is the result of a synchronous `store.getState()` read performed during
that very invocation — `useStore` returns the current state of the store for
every possible prior hook state, never a cached or stale value. -/
theorem useStore_returns_fresh_state (T : Type) (s : SysState T) (sid : Nat)
    (rArg : Option (Responsive T)) :
    stateOf (useStore s (StoreArg.inst sid) rArg) = some (s.stores sid) :=
  rfl

/-- Claim C4: for every argument that is not a genuine `Store` instance,
`useStore` fails immediately with the descriptive error, producing no
successor state (so no subscription and no other effect happens), while a
genuine store instance never errors — the invalid-handle check is the only
error path. -/
theorem useStore_invalid_handle (T : Type) (s : SysState T) (arg : StoreArg T)
    (rArg : Option (Responsive T)) (sid : Nat)
    (h : isStoreInst arg = false) :
    useStore s arg rArg = Except.error "store is not an instance of Store" ∧
    isErr (useStore s (StoreArg.inst sid) rArg) = false := by
  refine ⟨?_, rfl⟩
  cases arg with
  | inst sid2 => simp [isStoreInst] at h
  | duck sid2 => rfl
  | other => rfl

/-- Witness for C4 at a concrete invalid argument. -/
theorem useStore_invalid_handle_witness :
    useStore (initSys fun _ => (0 : Nat)) StoreArg.other none
      = Except.error "store is not an instance of Store" ∧
    isErr (useStore (initSys fun _ => (0 : Nat)) (StoreArg.inst 0) none) = false :=
  useStore_invalid_handle Nat (initSys fun _ => 0) StoreArg.other none 0 rfl

/-- Claim C10: store-handle validity is decided by class identity, not
structural shape: an object structurally exposing working `getState`,
`setState` and `onUpdate` methods (`StoreArg.duck`) is rejected with the
error because it is not an instance of the `Store` class, while every
genuine `Store` instance passes the check. -/
theorem useStore_class_identity (T : Type) (s : SysState T)
    (rArg : Option (Responsive T)) (sid sid2 : Nat) :
    isStoreInst (T := T) (StoreArg.duck sid) = false ∧
    useStore s (StoreArg.duck sid) rArg
      = Except.error "store is not an instance of Store" ∧
    isStoreInst (T := T) (StoreArg.inst sid2) = true ∧
    isErr (useStore s (StoreArg.inst sid2) rArg) = false :=
  ⟨rfl, rfl, rfl, rfl⟩

/-- Claim C9 (runtime behavior): `useStoreContext(context, policy)` equals
`useStore` applied to the resolved store with the same policy, with an
omitted policy defaulting to always-responsive `true` — the wrapper adds
no logic beyond resolving the context and delegating. -/
theorem useStoreContext_delegates (T : Type) (s : SysState T)
    (ctx : ReactContext T) (rArg : Option (Responsive T)) :
    useStoreContext s ctx rArg = useStoreContextClaimed s ctx rArg := by
  cases rArg with
  | none =>
      cases h : ctx.value with
      | inst sid =>
          simp [useStoreContext, useStoreContextClaimed, useContextStore, useStore, h]
      | duck sid =>
          simp [useStoreContext, useStoreContextClaimed, useContextStore, useStore, h]
      | other =>
          simp [useStoreContext, useStoreContextClaimed, useContextStore, useStore, h]
  | some r => rfl

/-- Helper: with an empty listener registry, `setState` calls never touch
the hook cells of the instance. -/
theorem runEvs_sets_empty_regs (T : Type) (ρ : Nat → Rat) (sid : Nat) :
    ∀ (fs : List (T → T)) (s : SysState T), s.regs = [] →
      (runEvs ρ s (fs.map (Ev.set sid))).hooks = s.hooks := by
  intro fs
  induction fs with
  | nil => intro s h; rfl
  | cons f fs ih =>
      intro s h
      have h1 : (setStep ρ s sid f).regs = [] := by simpa [setStep] using h
      have h2 : (setStep ρ s sid f).hooks = s.hooks := by simp [setStep, h, deliver]
      calc (runEvs ρ s ((f :: fs).map (Ev.set sid))).hooks
          = (runEvs ρ (setStep ρ s sid f) (fs.map (Ev.set sid))).hooks := rfl
        _ = (setStep ρ s sid f).hooks := ih _ h1
        _ = s.hooks := h2

/-- Claim C2: with `responsivePolicy = false`, mounting creates no
subscription, any sequence of `setState` calls on the store issues no
re-render request and leaves every hook cell untouched, yet the next
invocation of the binding still returns the new store value. -/
theorem useStore_false_policy (T : Type) (ρ : Nat → Rat) (σ0 : Nat → T)
    (sid : Nat) (f : T → T) (fs : List (T → T)) :
    (mounted ρ σ0 sid (Responsive.bool false)).regs = [] ∧
    (mounted ρ σ0 sid (Responsive.bool false)).hooks.subReg = none ∧
    (runEvs ρ (mounted ρ σ0 sid (Responsive.bool false))
        (fs.map (Ev.set sid))).hooks
      = (mounted ρ σ0 sid (Responsive.bool false)).hooks ∧
    (setStep ρ (mounted ρ σ0 sid (Responsive.bool false)) sid f).hooks
      = (mounted ρ σ0 sid (Responsive.bool false)).hooks ∧
    (renderInst (setStep ρ (mounted ρ σ0 sid (Responsive.bool false)) sid f) sid
        (Responsive.bool false)).1.1 = f (σ0 sid) := by
  refine ⟨rfl, rfl, runEvs_sets_empty_regs T ρ sid fs _ rfl, rfl, ?_⟩
  simp [mounted, runEvs, stepEv, renderInst, setStep, runEffect, initSys, initHooks,
        useMemoSetter, depsChanged, truthy, cleanupSub, deliver, deliverOne]

/-- Claim C1: with a predicate policy `p`, an update notification
delivering `(next, prev)` issues a re-render request if and only if
`p next prev` is true, and the predicate receives the two raw state values
exactly as delivered by the store. -/
theorem useStore_predicate_policy (T : Type) (ρ : Nat → Rat) (σ0 : Nat → T)
    (sid pr : Nat) (p : T → T → Bool) (f : T → T) :
    (setStep ρ (mounted ρ σ0 sid (Responsive.pred pr p)) sid f).hooks.requests
      = (mounted ρ σ0 sid (Responsive.pred pr p)).hooks.requests
        + (if p (f ((mounted ρ σ0 sid (Responsive.pred pr p)).stores sid))
               ((mounted ρ σ0 sid (Responsive.pred pr p)).stores sid)
           then 1 else 0) ∧
    ((setStep ρ (mounted ρ σ0 sid (Responsive.pred pr p)) sid f).hooks.requests
        ≠ (mounted ρ σ0 sid (Responsive.pred pr p)).hooks.requests
      ↔ p (f ((mounted ρ σ0 sid (Responsive.pred pr p)).stores sid))
          ((mounted ρ σ0 sid (Responsive.pred pr p)).stores sid) = true) := by
  simp only [mounted, runEvs, stepEv, renderInst, setStep, runEffect, initSys, initHooks,
             useMemoSetter, depsChanged, truthy, cleanupSub, deliver, deliverOne, listenerFires]
  by_cases hp : p (f (σ0 sid)) (σ0 sid) <;> simp [hp]

/-- Helper: a `setState` on store `sid` delivered to a registry holding
exactly one always-firing listener for `sid` issues exactly one re-render
request, writes the next random draw into the revision cell, and leaves
the registry unchanged. -/
theorem setStep_always_fires (T : Type) (ρ : Nat → Rat) (sid rid : Nat) (f : T → T)
    (s : SysState T) (h : s.regs = [⟨rid, sid, fun _ _ => true⟩]) :
    (setStep ρ s sid f).hooks.revision = ρ s.hooks.randIdx ∧
    (setStep ρ s sid f).hooks.randIdx = s.hooks.randIdx + 1 ∧
    (setStep ρ s sid f).hooks.requests = s.hooks.requests + 1 ∧
    (setStep ρ s sid f).regs = s.regs := by
  simp [setStep, h, deliver, deliverOne]

/-- Helper: with a single always-firing listener for store `sid`, a list of
`setState` events on `sid` issues exactly one re-render request per event. -/
theorem requests_after_sets (T : Type) (ρ : Nat → Rat) (sid rid : Nat) :
    ∀ (fs : List (T → T)) (s : SysState T),
      s.regs = [⟨rid, sid, fun _ _ => true⟩] →
      (runEvs ρ s (fs.map (Ev.set sid))).hooks.requests
        = s.hooks.requests + fs.length := by
  intro fs
  induction fs with
  | nil => intro s h; simp [runEvs]
  | cons f fs ih =>
      intro s h
      have hregs : (setStep ρ s sid f).regs = [⟨rid, sid, fun _ _ => true⟩] := by
        simpa [setStep] using h
      have hreq : (setStep ρ s sid f).hooks.requests = s.hooks.requests + 1 :=
        (setStep_always_fires T ρ sid rid f s h).2.2.1
      have hrun : (runEvs ρ s ((f :: fs).map (Ev.set sid))).hooks.requests
          = (runEvs ρ (setStep ρ s sid f) (fs.map (Ev.set sid))).hooks.requests := rfl
      rw [hrun, ih _ hregs, hreq, List.length_cons]
      omega

/-- Claim C3: with `responsivePolicy = true`, every update notification
from the store causes exactly one re-render request — after any sequence
of `setState` calls the number of requests issued equals the number of
notifications, with no deduplication across notifications. -/
theorem useStore_true_policy (T : Type) (ρ : Nat → Rat) (σ0 : Nat → T)
    (sid : Nat) (fs : List (T → T)) :
    (mounted ρ σ0 sid (Responsive.bool true)).hooks.requests = 0 ∧
    (runEvs ρ (mounted ρ σ0 sid (Responsive.bool true))
        (fs.map (Ev.set sid))).hooks.requests
      = (mounted ρ σ0 sid (Responsive.bool true)).hooks.requests + fs.length := by
  exact ⟨rfl, requests_after_sets T ρ sid 0 fs _ rfl⟩

/-- Claim C7 counterexample: two consecutive `Math.random()` draws can
coincide, and then a re-render request leaves the render-trigger token
equal to its previous value — the mutation scheme does not guarantee
inequality with the previous token on every trigger.  Here the random
stream is constantly `0`: the second trigger issues a request
(`requests` grows by one) while the revision token stays unchanged. -/
theorem revision_token_not_always_distinct :
    (setStep (fun _ => (0 : Rat))
        (setStep (fun _ => (0 : Rat))
          (mounted (fun _ => (0 : Rat)) (fun _ => (0 : Nat)) 0
            (Responsive.bool true)) 0 (fun n => n + 1)) 0
        (fun n => n + 1)).hooks.requests
      = (setStep (fun _ => (0 : Rat))
          (mounted (fun _ => (0 : Rat)) (fun _ => (0 : Nat)) 0
            (Responsive.bool true)) 0 (fun n => n + 1)).hooks.requests + 1 ∧
    (setStep (fun _ => (0 : Rat))
        (setStep (fun _ => (0 : Rat))
          (mounted (fun _ => (0 : Rat)) (fun _ => (0 : Nat)) 0
            (Responsive.bool true)) 0 (fun n => n + 1)) 0
        (fun n => n + 1)).hooks.revision
      = (setStep (fun _ => (0 : Rat))
          (mounted (fun _ => (0 : Rat)) (fun _ => (0 : Nat)) 0
            (Responsive.bool true)) 0 (fun n => n + 1)).hooks.revision :=
  ⟨rfl, rfl⟩

/-- Claim C7 as amended: every re-render request writes the next random
draw into the render-trigger token; the token therefore differs from its
previous value on the first trigger (the initial token `-1` lies outside
the range of `Math.random()`) and on any trigger whose fresh draw differs
from the current token — but not necessarily when consecutive draws
coincide. -/
theorem revision_token_change (T : Type) (ρ : Nat → Rat) (σ0 : Nat → T)
    (sid : Nat) (f g : T → T) (h1 : (0 : Rat) ≤ ρ 0) (h2 : ρ 1 ≠ ρ 0) :
    (setStep ρ (mounted ρ σ0 sid (Responsive.bool true)) sid f).hooks.requests
      = (mounted ρ σ0 sid (Responsive.bool true)).hooks.requests + 1 ∧
    (setStep ρ (setStep ρ (mounted ρ σ0 sid (Responsive.bool true)) sid f)
        sid g).hooks.requests
      = (setStep ρ (mounted ρ σ0 sid (Responsive.bool true)) sid f).hooks.requests
        + 1 ∧
    (setStep ρ (mounted ρ σ0 sid (Responsive.bool true)) sid f).hooks.revision
      ≠ (mounted ρ σ0 sid (Responsive.bool true)).hooks.revision ∧
    (setStep ρ (setStep ρ (mounted ρ σ0 sid (Responsive.bool true)) sid f)
        sid g).hooks.revision
      ≠ (setStep ρ (mounted ρ σ0 sid (Responsive.bool true)) sid f).hooks.revision := by
  have hregs0 : (mounted ρ σ0 sid (Responsive.bool true)).regs
      = [⟨0, sid, fun _ _ => true⟩] := rfl
  have hs1 := setStep_always_fires T ρ sid 0 f _ hregs0
  have hregs1 : (setStep ρ (mounted ρ σ0 sid (Responsive.bool true)) sid f).regs
      = [⟨0, sid, fun _ _ => true⟩] := hs1.2.2.2.trans hregs0
  have hs2 := setStep_always_fires T ρ sid 0 g _ hregs1
  have hrev0 : (mounted ρ σ0 sid (Responsive.bool true)).hooks.revision = -1 := rfl
  have hidx0 : (mounted ρ σ0 sid (Responsive.bool true)).hooks.randIdx = 0 := rfl
  refine ⟨hs1.2.2.1, hs2.2.2.1, ?_, ?_⟩
  · rw [hs1.1, hrev0, hidx0]
    intro hEq
    rw [hEq] at h1
    exact absurd h1 (by norm_num)
  · rw [hs2.1, hs1.1, hs1.2.1, hidx0]
    exact h2

/-- Witness for C7 as amended, at a concrete random stream whose first two
draws differ. -/
theorem revision_token_change_witness :
    (setStep (fun n => if n = 0 then 0 else 1)
        (mounted (fun n => if n = 0 then 0 else 1) (fun _ => (0 : Nat)) 0
          (Responsive.bool true)) 0 (fun n => n + 1)).hooks.requests
      = (mounted (fun n => if n = 0 then 0 else 1) (fun _ => (0 : Nat)) 0
          (Responsive.bool true)).hooks.requests + 1 ∧
    (setStep (fun n => if n = 0 then 0 else 1)
        (setStep (fun n => if n = 0 then 0 else 1)
          (mounted (fun n => if n = 0 then 0 else 1) (fun _ => (0 : Nat)) 0
            (Responsive.bool true)) 0 (fun n => n + 1)) 0
        (fun n => n + 1)).hooks.requests
      = (setStep (fun n => if n = 0 then 0 else 1)
          (mounted (fun n => if n = 0 then 0 else 1) (fun _ => (0 : Nat)) 0
            (Responsive.bool true)) 0 (fun n => n + 1)).hooks.requests + 1 ∧
    (setStep (fun n => if n = 0 then 0 else 1)
        (mounted (fun n => if n = 0 then 0 else 1) (fun _ => (0 : Nat)) 0
          (Responsive.bool true)) 0 (fun n => n + 1)).hooks.revision
      ≠ (mounted (fun n => if n = 0 then 0 else 1) (fun _ => (0 : Nat)) 0
          (Responsive.bool true)).hooks.revision ∧
    (setStep (fun n => if n = 0 then 0 else 1)
        (setStep (fun n => if n = 0 then 0 else 1)
          (mounted (fun n => if n = 0 then 0 else 1) (fun _ => (0 : Nat)) 0
            (Responsive.bool true)) 0 (fun n => n + 1)) 0
        (fun n => n + 1)).hooks.revision
      ≠ (setStep (fun n => if n = 0 then 0 else 1)
          (mounted (fun n => if n = 0 then 0 else 1) (fun _ => (0 : Nat)) 0
            (Responsive.bool true)) 0 (fun n => n + 1)).hooks.revision :=
  revision_token_change Nat (fun n => if n = 0 then 0 else 1) (fun _ => 0) 0
    (fun n => n + 1) (fun n => n + 1) (by decide) (by decide)

/-- Helper: delivering a notification touches only the revision cell, the
random-stream index and the request counter, never the memo cell, the
effect bookkeeping or the freshness counter. -/
theorem deliver_preserves (T : Type) (ρ : Nat → Rat) (sid : Nat) (next prev : T) :
    ∀ (regs : List (Reg T)) (h : Hooks T),
      (deliver ρ regs h sid next prev).memo = h.memo ∧
      (deliver ρ regs h sid next prev).subReg = h.subReg ∧
      (deliver ρ regs h sid next prev).lastDeps = h.lastDeps ∧
      (deliver ρ regs h sid next prev).freshSetter = h.freshSetter := by
  intro regs
  induction regs with
  | nil => intro h; exact ⟨rfl, rfl, rfl, rfl⟩
  | cons r rest ih =>
      intro h
      have hone : (deliverOne ρ h r sid next prev).memo = h.memo ∧
          (deliverOne ρ h r sid next prev).subReg = h.subReg ∧
          (deliverOne ρ h r sid next prev).lastDeps = h.lastDeps ∧
          (deliverOne ρ h r sid next prev).freshSetter = h.freshSetter := by
        unfold deliverOne
        split_ifs <;> exact ⟨rfl, rfl, rfl, rfl⟩
      have hrest := ih (deliverOne ρ h r sid next prev)
      exact ⟨hrest.1.trans hone.1, hrest.2.1.trans hone.2.1,
             hrest.2.2.1.trans hone.2.2.1, hrest.2.2.2.trans hone.2.2.2⟩

/-- Helper: the memo cell produced by `useMemo` always caches the setter it
returned, keyed by the store it was computed for. -/
theorem useMemoSetter_memo (m : Option (Nat × Setter)) (sid fresh : Nat) :
    (useMemoSetter m sid fresh).2.1 = some (sid, (useMemoSetter m sid fresh).1) := by
  unfold useMemoSetter
  cases m with
  | none => rfl
  | some p =>
      obtain ⟨msid, st⟩ := p
      by_cases hm : msid = sid
      · simp [hm]
      · simp [hm]

/-- A well-formed memo cell: any cached setter is bound to the store it is
keyed by. -/
def MemoOkM (m : Option (Nat × Setter)) : Prop :=
  ∀ a b, m = some (a, b) → b.storeId = a

/-- Helper: under a well-formed memo cell, the setter returned by `useMemo`
is bound to the store passed in — reused or fresh. -/
theorem useMemoSetter_storeId (m : Option (Nat × Setter)) (sid fresh : Nat)
    (hok : MemoOkM m) : ((useMemoSetter m sid fresh).1).storeId = sid := by
  unfold useMemoSetter
  cases m with
  | none => rfl
  | some p =>
      obtain ⟨msid, st⟩ := p
      by_cases hm : msid = sid
      · simp only [hm, if_true]
        exact (hok msid st rfl).trans hm
      · simp [hm]

/-- Helper: `useMemo` keeps the memo cell well formed. -/
theorem memoOkM_useMemoSetter (m : Option (Nat × Setter)) (sid fresh : Nat)
    (hok : MemoOkM m) : MemoOkM (useMemoSetter m sid fresh).2.1 := by
  intro a b hab
  rw [useMemoSetter_memo] at hab
  obtain ⟨ha, hb⟩ := Prod.mk.injEq .. ▸ Option.some.injEq .. ▸ hab
  rw [← ha, ← hb]
  exact useMemoSetter_storeId m sid fresh hok

/-- Helper: the effect never touches the memo cell or the freshness
counter. -/
theorem runEffect_memo (T : Type) (s : SysState T) (sid : Nat)
    (resp : Responsive T) :
    (runEffect s sid resp).hooks.memo = s.hooks.memo ∧
    (runEffect s sid resp).hooks.freshSetter = s.hooks.freshSetter := by
  unfold runEffect
  split_ifs <;> exact ⟨rfl, rfl⟩

/-- Helper: after a render with store `sid`, the memo cell caches exactly
the setter that the render returned, keyed by `sid`. -/
theorem renderInst_memo (T : Type) (s : SysState T) (sid : Nat)
    (resp : Responsive T) :
    (renderInst s sid resp).2.hooks.memo = some (sid, (renderInst s sid resp).1.2) := by
  show (runEffect _ sid resp).hooks.memo = _
  rw [(runEffect_memo ..).1]
  exact useMemoSetter_memo s.hooks.memo sid s.hooks.freshSetter

/-- Helper: a render keeps the memo cell well formed. -/
theorem memoOkM_renderInst (T : Type) (s : SysState T) (sid : Nat)
    (resp : Responsive T) (hok : MemoOkM s.hooks.memo) :
    MemoOkM (renderInst s sid resp).2.hooks.memo := by
  have he : (renderInst s sid resp).2.hooks.memo
      = (useMemoSetter s.hooks.memo sid s.hooks.freshSetter).2.1 := by
    show (runEffect _ sid resp).hooks.memo = _
    rw [(runEffect_memo ..).1]
  rw [he]
  exact memoOkM_useMemoSetter s.hooks.memo sid s.hooks.freshSetter hok

/-- Helper: every event preserves well-formedness of the memo cell. -/
theorem memoOkM_stepEv (T : Type) (ρ : Nat → Rat) (s : SysState T) (e : Ev T)
    (hok : MemoOkM s.hooks.memo) : MemoOkM (stepEv ρ s e).hooks.memo := by
  cases e with
  | render sid rArg => exact memoOkM_renderInst T s sid _ hok
  | set sid f =>
      have he : (stepEv ρ s (Ev.set sid f)).hooks.memo = s.hooks.memo :=
        (deliver_preserves T ρ sid _ _ s.regs s.hooks).1
      rw [he]; exact hok
  | unmount => exact hok

/-- Helper: any run from the initial system keeps the memo cell well
formed. -/
theorem memoOkM_runEvs (T : Type) (ρ : Nat → Rat) :
    ∀ (evs : List (Ev T)) (s : SysState T),
      MemoOkM s.hooks.memo → MemoOkM (runEvs ρ s evs).hooks.memo := by
  intro evs
  induction evs with
  | nil => intro s h; exact h
  | cons e es ih => intro s h; exact ih _ (memoOkM_stepEv T ρ s e h)

/-- Claim C5: the setter returned by `useStore` is reference-stable across
consecutive renders with the same store handle, and a render with a
different store handle produces a setter bound to the `setState` of the new store — hence a different reference. -/
theorem useStore_setter_stable (T : Type) (ρ : Nat → Rat) (σ0 : Nat → T)
    (evs : List (Ev T)) (sid sid2 : Nat) (r1a r2a r3a : Responsive T)
    (h : sid2 ≠ sid) :
    let s := runEvs ρ (initSys σ0) evs
    let c1 := renderInst s sid r1a
    let c2 := renderInst c1.2 sid r2a
    let c3 := renderInst c1.2 sid2 r3a
    c2.1.2 = c1.1.2 ∧ c3.1.2.storeId = sid2 ∧ c3.1.2 ≠ c1.1.2 := by
  intro s c1 c2 c3
  have hok : MemoOkM s.hooks.memo :=
    memoOkM_runEvs T ρ evs (initSys σ0) (fun a b hab => by cases hab)
  have hmemo : c1.2.hooks.memo = some (sid, c1.1.2) := renderInst_memo T s sid r1a
  have hsid1 : c1.1.2.storeId = sid :=
    useMemoSetter_storeId s.hooks.memo sid s.hooks.freshSetter hok
  have h2 : c2.1.2 = c1.1.2 := by
    show (useMemoSetter c1.2.hooks.memo sid c1.2.hooks.freshSetter).1 = c1.1.2
    rw [hmemo]
    simp [useMemoSetter]
  have hne : sid ≠ sid2 := fun hh => h hh.symm
  have h3 : c3.1.2.storeId = sid2 := by
    show ((useMemoSetter c1.2.hooks.memo sid2 c1.2.hooks.freshSetter).1).storeId = sid2
    rw [hmemo]
    simp [useMemoSetter, hne]
  refine ⟨h2, h3, ?_⟩
  intro hEq
  rw [hEq] at h3
  rw [hsid1] at h3
  exact h h3.symm

/-- Witness for C5 at concrete stores 0 and 1. -/
theorem useStore_setter_stable_witness :
    let s := runEvs (fun _ => (0 : Rat)) (initSys fun _ => (0 : Nat)) []
    let c1 := renderInst s 0 (Responsive.bool true)
    let c2 := renderInst c1.2 0 (Responsive.bool true)
    let c3 := renderInst c1.2 1 (Responsive.bool true)
    c2.1.2 = c1.1.2 ∧ c3.1.2.storeId = 1 ∧ c3.1.2 ≠ c1.1.2 :=
  useStore_setter_stable Nat (fun _ => 0) (fun _ => 0) [] 0 1
    (Responsive.bool true) (Responsive.bool true) (Responsive.bool true)
    (by decide)

/-- At most one active subscription for the component instance, and the
pending cleanup handle identifies it: every registration in the registry
is the one held by the cleanup closure of the effect. -/
def SubAtMostOne {T : Type} (s : SysState T) : Prop :=
  s.regs.length ≤ 1 ∧ ∀ r ∈ s.regs, s.hooks.subReg = some r.regId

/-- Helper: under the subscription invariant, running the pending cleanup
empties the registry. -/
theorem cleanup_of_inv (T : Type) (regs : List (Reg T)) (sr : Option Nat)
    (hlen : regs.length ≤ 1) (hall : ∀ r ∈ regs, sr = some r.regId) :
    cleanupSub regs sr = [] := by
  cases regs with
  | nil => cases sr <;> rfl
  | cons r rest =>
      cases rest with
      | cons r2 rest2 => simp at hlen
      | nil =>
          have hr : sr = some r.regId := hall r (by simp)
          rw [hr]
          simp [cleanupSub]

/-- Helper: every event preserves the subscription invariant. -/
theorem subAtMostOne_stepEv (T : Type) (ρ : Nat → Rat) (s : SysState T)
    (e : Ev T) (hInv : SubAtMostOne s) : SubAtMostOne (stepEv ρ s e) := by
  cases e with
  | render sid rArg =>
      show SubAtMostOne (runEffect _ sid _)
      unfold runEffect
      split_ifs with hdc htr
      · constructor
        · rw [cleanup_of_inv T s.regs s.hooks.subReg hInv.1 hInv.2]
          simp
        · intro r hr
          rw [cleanup_of_inv T s.regs s.hooks.subReg hInv.1 hInv.2] at hr
          simp at hr
          rw [hr]
      · constructor
        · rw [cleanup_of_inv T s.regs s.hooks.subReg hInv.1 hInv.2]
          simp
        · intro r hr
          rw [cleanup_of_inv T s.regs s.hooks.subReg hInv.1 hInv.2] at hr
          simp at hr
      · exact hInv
  | set sid f =>
      refine ⟨hInv.1, ?_⟩
      intro r hr
      have he : (stepEv ρ s (Ev.set sid f)).hooks.subReg = s.hooks.subReg :=
        (deliver_preserves T ρ sid _ _ s.regs s.hooks).2.1
      rw [he]
      exact hInv.2 r hr
  | unmount =>
      constructor
      · show (cleanupSub s.regs s.hooks.subReg).length ≤ 1
        rw [cleanup_of_inv T s.regs s.hooks.subReg hInv.1 hInv.2]
        simp
      · intro r hr
        have : r ∈ cleanupSub s.regs s.hooks.subReg := hr
        rw [cleanup_of_inv T s.regs s.hooks.subReg hInv.1 hInv.2] at this
        simp at this

/-- Helper: the subscription invariant holds along every run from the
initial system. -/
theorem subAtMostOne_runEvs (T : Type) (ρ : Nat → Rat) :
    ∀ (evs : List (Ev T)) (s : SysState T),
      SubAtMostOne s → SubAtMostOne (runEvs ρ s evs) := by
  intro evs
  induction evs with
  | nil => intro s h; exact h
  | cons e es ih => intro s h; exact ih _ (subAtMostOne_stepEv T ρ s e h)

/-- Helper: running an appended event list is running the two lists in
sequence. -/
theorem runEvs_append (T : Type) (ρ : Nat → Rat) :
    ∀ (a b : List (Ev T)) (s : SysState T),
      runEvs ρ s (a ++ b) = runEvs ρ (runEvs ρ s a) b := by
  intro a
  induction a with
  | nil => intro b s; rfl
  | cons e es ih => intro b s; exact ih b (stepEv ρ s e)

/-- Helper: when the effect dependencies changed, the effect first runs the
previous cleanup and then — contingent on a truthy policy — registers the
single new listener: under the subscription invariant, the resulting
registry is exactly the new registration, or empty for a falsy policy. -/
theorem runEffect_depsChanged (T : Type) (s : SysState T) (sid : Nat)
    (resp : Responsive T)
    (hd : depsChanged s.hooks.lastDeps sid resp = true)
    (hlen : s.regs.length ≤ 1)
    (hall : ∀ r ∈ s.regs, s.hooks.subReg = some r.regId) :
    (runEffect s sid resp).regs
      = (if truthy resp then [⟨s.nextReg, sid, listenerFires resp⟩] else []) := by
  unfold runEffect
  split_ifs <;>
    simp_all [cleanup_of_inv T s.regs s.hooks.subReg hlen hall]

/-- Claim C8: the subscription lifecycle — at most one active subscription
exists at any time along any event sequence; whenever the store handle or
the policy reference changed since the previous effect run, the old
subscription is torn down and the registry afterwards holds exactly the
new registration when the policy is truthy and nothing when it is falsy;
on unmount the subscription is torn down unconditionally; and a
`setState` after unmount never touches the hook
cells of the unmounted instance — no render is ever attempted on it. -/
theorem useStore_subscription_lifecycle (T : Type) (ρ : Nat → Rat)
    (σ0 : Nat → T) (evs : List (Ev T)) (sid : Nat) (f : T → T)
    (resp : Responsive T)
    (hd : depsChanged (runEvs ρ (initSys σ0) evs).hooks.lastDeps sid resp = true) :
    SubAtMostOne (runEvs ρ (initSys σ0) evs) ∧
    (runEvs ρ (initSys σ0) (evs ++ [Ev.unmount])).regs = [] ∧
    (runEvs ρ (initSys σ0) (evs ++ [Ev.unmount, Ev.set sid f])).hooks
      = (runEvs ρ (initSys σ0) (evs ++ [Ev.unmount])).hooks ∧
    (renderInst (runEvs ρ (initSys σ0) evs) sid resp).2.regs
      = (if truthy resp then
          [⟨(runEvs ρ (initSys σ0) evs).nextReg, sid, listenerFires resp⟩]
         else []) := by
  have hinit : SubAtMostOne (initSys (T := T) σ0) := by
    refine ⟨by simp [initSys], ?_⟩
    intro r hr
    simp [initSys] at hr
  have hs : SubAtMostOne (runEvs ρ (initSys σ0) evs) :=
    subAtMostOne_runEvs T ρ evs (initSys σ0) hinit
  have hu : (runEvs ρ (initSys σ0) (evs ++ [Ev.unmount])).regs = [] := by
    rw [runEvs_append]
    show (cleanupSub (runEvs ρ (initSys σ0) evs).regs
        (runEvs ρ (initSys σ0) evs).hooks.subReg) = []
    exact cleanup_of_inv T _ _ hs.1 hs.2
  refine ⟨hs, hu, ?_, ?_⟩
  · rw [runEvs_append, runEvs_append]
    have hu2 : (runEvs ρ (runEvs ρ (initSys σ0) evs) [Ev.unmount]).regs = [] := by
      rw [← runEvs_append]; exact hu
    show (setStep ρ (runEvs ρ (runEvs ρ (initSys σ0) evs) [Ev.unmount]) sid f).hooks
      = (runEvs ρ (runEvs ρ (initSys σ0) evs) [Ev.unmount]).hooks
    simp [setStep, hu2, deliver]
  · exact runEffect_depsChanged T _ sid resp hd hs.1 hs.2

/-- Witness for C8 on the empty prior trace (first effect run). -/
theorem useStore_subscription_lifecycle_witness :
    SubAtMostOne (runEvs (fun _ => (0 : Rat)) (initSys fun _ => (0 : Nat)) []) ∧
    (runEvs (fun _ => (0 : Rat)) (initSys fun _ => (0 : Nat)) [Ev.unmount]).regs = [] ∧
    (runEvs (fun _ => (0 : Rat)) (initSys fun _ => (0 : Nat))
        [Ev.unmount, Ev.set 0 (fun n => n + 1)]).hooks
      = (runEvs (fun _ => (0 : Rat)) (initSys fun _ => (0 : Nat)) [Ev.unmount]).hooks ∧
    (renderInst (runEvs (fun _ => (0 : Rat)) (initSys fun _ => (0 : Nat)) []) 0
        (Responsive.bool true)).2.regs
      = (if truthy (Responsive.bool true : Responsive Nat) then
          [⟨(runEvs (fun _ => (0 : Rat)) (initSys fun _ => (0 : Nat)) []).nextReg, 0,
            listenerFires (Responsive.bool true : Responsive Nat)⟩]
         else []) :=
  useStore_subscription_lifecycle Nat (fun _ => 0) (fun _ => 0) [] 0
    (fun n => n + 1) (Responsive.bool true) rfl
